import Mathlib

/-
Verification of the chronor activity-tracker core against its specification.

The Python source is shallowly embedded: each definition below mirrors one
function (or one loop) of src/handlers.py or src/database.py, with
machine-level concerns abstracted as follows.  UTC instants and local
timestamps are natural numbers ordered like the corresponding datetimes;
calendar dates are natural day indices (yesterday of day d is d - 1);
the SQLite store is an explicit value threaded through the functions; the
chat transport is an oracle boolean saying whether an outbound send
succeeds (a False models telegram.error.Forbidden or any other exception
raised by the send call).
-/

namespace Chronor

/-
ReportCompressor, from src/handlers.py, _send_activity_report
(lines 89-117).  The Python loop walks the timestamp-ordered samples of
one user-day; whenever the description differs from the current block it
appends the closed block (start, end = the differing sample's time) and
restarts the block at that sample; after the loop it appends one final
open-ended block.  A block is modelled as (start, optional end,
description); the activity ids returned by the store are not used by the
compression and are omitted.
-/

/-- The for-loop of _send_activity_report (src/handlers.py lines 98-117):
current block start and description, remaining samples; returns the block
lines in emission order, final open block included. -/
def compressLoop (startTs : Nat) (curDesc : String) :
    List (Nat × String) → List (Nat × Option Nat × String)
  | [] => [(startTs, none, curDesc)]
  | (ts, d) :: rest =>
    if d ≠ curDesc then
      (startTs, some ts, curDesc) :: compressLoop ts d rest
    else
      compressLoop startTs curDesc rest

/-- _send_activity_report's compression (src/handlers.py lines 77-117):
empty input signals NoData (the code replies that no records were found
and returns without a report); otherwise the first sample opens the
initial block and the loop runs over the rest. -/
def reportBlocks : List (Nat × String) → Option (List (Nat × Option Nat × String))
  | [] => none
  | (ts, d) :: rest => some (compressLoop ts d rest)

/-- Follows the spec's words: the samples that begin a maximal run of
consecutive equal descriptions, i.e. every sample whose description
differs from the one before it.  The argument is the description of the
previous sample. -/
def runStartsAux (d : String) : List (Nat × String) → List (Nat × String)
  | [] => []
  | q :: rest => if q.2 = d then runStartsAux d rest else q :: runStartsAux q.2 rest

/-- Follows the spec's words: the first sample always starts a run. -/
def runStarts : List (Nat × String) → List (Nat × String)
  | [] => []
  | p :: rest => p :: runStartsAux p.2 rest

/-- Follows the spec's words: one block per run, each closed block ending
at the next run's first timestamp (the moment the next distinct value
began), the final block open-ended. -/
def pairBlocks : List (Nat × String) → List (Nat × Option Nat × String)
  | [] => []
  | [(t, d)] => [(t, none, d)]
  | (t, d) :: q :: rest => (t, some q.1, d) :: pairBlocks (q :: rest)

lemma compressLoop_eq_pairBlocks (rest : List (Nat × String)) :
    ∀ t d, compressLoop t d rest = pairBlocks ((t, d) :: runStartsAux d rest) := by
  induction rest with
  | nil => intro t d; rfl
  | cons q rest ih =>
    intro t d
    rcases q with ⟨ts, qd⟩
    by_cases h : qd = d
    · rw [show compressLoop t d ((ts, qd) :: rest) = compressLoop t d rest by
        simp [compressLoop, h]]
      rw [show runStartsAux d ((ts, qd) :: rest) = runStartsAux d rest by
        simp [runStartsAux, h]]
      exact ih t d
    · rw [show compressLoop t d ((ts, qd) :: rest)
          = (t, some ts, d) :: compressLoop ts qd rest by
        simp [compressLoop, h]]
      rw [show runStartsAux d ((ts, qd) :: rest)
          = (ts, qd) :: runStartsAux qd rest by
        simp [runStartsAux, h]]
      rw [ih ts qd]
      rfl

/-- C2: for every non-empty timestamp-ordered sample sequence the
compressor emits exactly the blocks of the maximal-run decomposition:
one block per maximal run of consecutive equal descriptions, each closed
block ending at the next differing sample's timestamp, the final block
open-ended; non-adjacent equal values separated by a different value stay
separate (the A, B, A input yields three blocks); a single sample yields
exactly one open-ended block starting at its time. -/
theorem reportCompressor_runs (p : Nat × String) (ps : List (Nat × String))
    (hord : List.Chain' (fun a b : Nat × String => a.1 ≤ b.1) (p :: ps)) :
    reportBlocks (p :: ps) = some (pairBlocks (runStarts (p :: ps))) ∧
    reportBlocks [(600, "A"), (630, "B"), (660, "A")] =
      some [(600, some 630, "A"), (630, some 660, "B"), (660, none, "A")] ∧
    (∀ (t : Nat) (d : String), reportBlocks [(t, d)] = some [(t, none, d)]) := by
  refine ⟨?_, by decide, ?_⟩
  · rcases p with ⟨t, d⟩
    show some (compressLoop t d ps) = some (pairBlocks ((t, d) :: runStartsAux d ps))
    rw [compressLoop_eq_pairBlocks]
  · intro t d
    rfl

theorem reportCompressor_runs_witness :
    reportBlocks [(600, "A"), (630, "B"), (660, "A")] =
      some (pairBlocks (runStarts [(600, "A"), (630, "B"), (660, "A")])) ∧
    reportBlocks [(600, "A"), (630, "B"), (660, "A")] =
      some [(600, some 630, "A"), (630, some 660, "B"), (660, none, "A")] ∧
    (∀ (t : Nat) (d : String), reportBlocks [(t, d)] = some [(t, none, d)]) :=
  reportCompressor_runs (600, "A") [(630, "B"), (660, "A")]
    (by norm_num [List.chain'_cons, List.chain'_singleton])

/-- C9: the empty user-day sample sequence produces no blocks at all: the
compressor signals NoData (src/handlers.py lines 77-87 reply that no
records were found and return before any block is built). -/
theorem reportCompressor_noData : reportBlocks [] = none := rfl

/-
PollScheduler, from src/handlers.py, ask_activity (lines 346-414) and
src/database.py, get_user_poll_window (lines 464-501).  The per-user poll
state is the boolean flag bot_data user_poll_state entry; the outbound
send is an oracle (deliverOk = False models a Forbidden or other
exception raised by send_message, which the loop catches and answers by
popping the flag).
-/

/-- get_user_poll_window (src/database.py lines 464-501): the stored row
(none for a missing row or NULL columns) passes basic validation
0 <= start < end <= 23, otherwise None is returned and the caller falls
back to the defaults. -/
def get_user_poll_window (stored : Option (Int × Int)) : Option (Nat × Nat) :=
  match stored with
  | none => none
  | some (s, e) => if 0 ≤ s ∧ s < e ∧ e ≤ 23 then some (s.toNat, e.toNat) else none

/-- The handler's fallback (src/handlers.py line 369):
poll_window or (DEFAULT_POLL_START_HOUR, DEFAULT_POLL_END_HOUR). -/
def effectiveWindow (stored : Option (Int × Int)) : Nat × Nat :=
  (get_user_poll_window stored).getD (8, 22)

/-- The per-user, per-cycle inputs of the ask_activity loop body. -/
structure PollEnv where
  localHour : Nat
  storedWindow : Option (Int × Int)
  deliverOk : Bool
deriving DecidableEq

/-- One iteration of the ask_activity loop (src/handlers.py lines
363-412) for one user: returns the new outstanding-prompt flag and
whether a prompt was delivered this cycle.  Outside the poll window the
user is skipped with the flag untouched; with the flag clear a prompt is
attempted, setting the flag on success; a failed send is caught and the
flag is popped; with the flag set the user is skipped. -/
def askActivityStep (env : PollEnv) (flag : Bool) : Bool × Bool :=
  let w := effectiveWindow env.storedWindow
  if w.1 ≤ env.localHour ∧ env.localHour ≤ w.2 then
    if !flag then
      if env.deliverOk then (true, true) else (false, false)
    else (flag, false)
  else (flag, false)

/-- Repeated scheduler cycles for one user: threads the flag through the
cycles and counts delivered prompts. -/
def askActivityRun (flag : Bool) : List PollEnv → Bool × Nat
  | [] => (flag, 0)
  | env :: rest =>
    let step := askActivityStep env flag
    let tail := askActivityRun step.1 rest
    (tail.1, (if step.2 then 1 else 0) + tail.2)

lemma askActivityStep_flagged (env : PollEnv) :
    askActivityStep env true = (true, false) := by
  simp only [askActivityStep, Bool.not_true, Bool.false_eq_true, if_false, ite_self]

/-- C3: while a user's outstanding-prompt flag is set the scheduler sends
no further prompt and leaves the flag set, over any number of cycles; a
cycle with the flag set never sends; and starting from a clear flag the
flag ends set exactly when a prompt was sent in that cycle. -/
theorem pollScheduler_no_reprompt (envs : List PollEnv) (env : PollEnv) :
    askActivityRun true envs = (true, 0) ∧
    (askActivityStep env true).2 = false ∧
    (askActivityStep env false).1 = (askActivityStep env false).2 := by
  refine ⟨?_, ?_, ?_⟩
  · induction envs with
    | nil => rfl
    | cons e rest ih =>
      simp [askActivityRun, askActivityStep_flagged, ih]
  · rw [askActivityStep_flagged]
  · simp only [askActivityStep, Bool.not_false, if_true]
    split_ifs <;> rfl

/-- C8: a prompt can be delivered only when the local hour lies inside
the effective poll window, boundaries included; an invalid or missing
stored window yields None from get_user_poll_window and the default 8-22
window applies; outside the effective window the user is skipped with the
flag unchanged; hours 8 and 22 themselves admit a prompt under the
default window. -/
theorem pollWindow_guard (stored : Option (Int × Int)) (hour : Nat) (dOk f : Bool)
    (hsent : (askActivityStep ⟨hour, stored, dOk⟩ f).2 = true) :
    ((effectiveWindow stored).1 ≤ hour ∧ hour ≤ (effectiveWindow stored).2) ∧
    (∀ st : Option (Int × Int), get_user_poll_window st = none →
      effectiveWindow st = (8, 22)) ∧
    (∀ s e : Int, ¬ (0 ≤ s ∧ s < e ∧ e ≤ 23) →
      get_user_poll_window (some (s, e)) = none) ∧
    (∀ (env : PollEnv) (f2 : Bool),
      ¬ ((effectiveWindow env.storedWindow).1 ≤ env.localHour ∧
          env.localHour ≤ (effectiveWindow env.storedWindow).2) →
      askActivityStep env f2 = (f2, false)) ∧
    (askActivityStep ⟨8, none, true⟩ false).2 = true ∧
    (askActivityStep ⟨22, none, true⟩ false).2 = true := by
  refine ⟨?_, ?_, ?_, ?_, by decide, by decide⟩
  · by_cases h : (effectiveWindow stored).1 ≤ hour ∧ hour ≤ (effectiveWindow stored).2
    · exact h
    · exfalso
      unfold askActivityStep at hsent
      rw [if_neg h] at hsent
      exact Bool.false_ne_true hsent
  · intro st hnone
    unfold effectiveWindow
    rw [hnone]
    rfl
  · intro s e hinvalid
    simp [get_user_poll_window, hinvalid]
  · intro env f2 hout
    simp only [askActivityStep, if_neg hout]

theorem pollWindow_guard_witness :
    ((effectiveWindow (some (9, 18))).1 ≤ 9 ∧ 9 ≤ (effectiveWindow (some (9, 18))).2) ∧
    (∀ st : Option (Int × Int), get_user_poll_window st = none →
      effectiveWindow st = (8, 22)) ∧
    (∀ s e : Int, ¬ (0 ≤ s ∧ s < e ∧ e ≤ 23) →
      get_user_poll_window (some (s, e)) = none) ∧
    (∀ (env : PollEnv) (f2 : Bool),
      ¬ ((effectiveWindow env.storedWindow).1 ≤ env.localHour ∧
          env.localHour ≤ (effectiveWindow env.storedWindow).2) →
      askActivityStep env f2 = (f2, false)) ∧
    (askActivityStep ⟨8, none, true⟩ false).2 = true ∧
    (askActivityStep ⟨22, none, true⟩ false).2 = true :=
  pollWindow_guard (some (9, 18)) 9 true false (by decide)

/-
ConversationState and handle_message, from src/handlers.py lines 417-473
and src/database.py (update_activity_description lines 414-461,
save_activity_to_db lines 333-367).  The per-user conversation state is
the pair of user_data keys is_editing_activity / editing_activity_id
plus the bot_data user_poll_state flag.  Store writes are modelled on an
explicit store value; the sqlite error path of save_activity_to_db
(which returns None) is the saveOk oracle.  The handler additionally
returns the ordered trace of its externally visible effects, one entry
per store call, state clear and outbound reply, in source order.
-/

/-- The per-user conversation state: user_data keys is_editing_activity
and editing_activity_id (src/handlers.py lines 426-446, 675-676) and the
bot_data user_poll_state flag for this user (lines 450-454). -/
structure ConvState where
  is_editing_activity : Bool
  editing_activity_id : Option Nat
  pollFlag : Bool
deriving DecidableEq

/-- One row of the activities table (src/database.py lines 85-93). -/
structure ActivityRow where
  activity_id : Nat
  user_id : Nat
  timestamp : Nat
  description : String
deriving DecidableEq

/-- The activities table plus its AUTOINCREMENT counter. -/
structure Store where
  rows : List ActivityRow
  nextId : Nat
deriving DecidableEq

/-- update_activity_description (src/database.py lines 414-461): SQL
UPDATE of the description of every row matching both activity_id and
user_id; returns True iff at least one row matched (rowcount > 0). -/
def update_activity_description (aid uid : Nat) (newDescription : String)
    (s : Store) : Store × Bool :=
  ({ s with rows := s.rows.map fun r =>
      if r.activity_id = aid ∧ r.user_id = uid then
        { r with description := newDescription }
      else r },
   s.rows.any fun r => r.activity_id == aid && r.user_id == uid)

/-- save_activity_to_db (src/database.py lines 333-367): INSERT returning
the fresh AUTOINCREMENT id, or None when the sqlite call raises (the
saveOk oracle). -/
def save_activity_to_db (uid : Nat) (description : String) (ts : Nat)
    (saveOk : Bool) (s : Store) : Store × Option Nat :=
  if saveOk then
    ({ rows := s.rows ++ [⟨s.nextId, uid, ts, description⟩], nextId := s.nextId + 1 },
     some s.nextId)
  else (s, none)

/-- The externally visible effects of handle_message, in source order. -/
inductive Effect where
  | clearPollFlag
  | saveActivity (uid : Nat) (description : String) (ts : Nat)
  | updateDesc (aid uid : Nat) (newDescription : String)
  | clearEditState
  | reply (ok : Bool)
deriving DecidableEq

def isUpdateCall : Effect → Bool
  | Effect.updateDesc _ _ _ => true
  | _ => false

def isSaveCall : Effect → Bool
  | Effect.saveActivity _ _ _ => true
  | _ => false

/-- handle_message (src/handlers.py lines 417-473).  Branch 1 (lines
426-448): an edit in progress consumes the message; if the activity id
key is lost no store call is made, otherwise one
update_activity_description call; both edit keys are popped regardless
of success and the handler returns early.  Branch 2 (lines 450-467):
with the outstanding-prompt flag set, the flag is popped first, then the
message text is saved with the current UTC instant nowUtc.  Branch 3
(lines 469-473): otherwise the message is ignored. -/
def handle_message (uid : Nat) (text : String) (nowUtc : Nat) (saveOk : Bool)
    (st : ConvState) (s : Store) : ConvState × Store × List Effect :=
  if st.is_editing_activity then
    match st.editing_activity_id with
    | none =>
        ({ st with is_editing_activity := false, editing_activity_id := none }, s,
         [Effect.clearEditState, Effect.reply false])
    | some aid =>
        let upd := update_activity_description aid uid text s
        ({ st with is_editing_activity := false, editing_activity_id := none }, upd.1,
         [Effect.updateDesc aid uid text, Effect.clearEditState, Effect.reply upd.2])
  else if st.pollFlag then
    let sv := save_activity_to_db uid text nowUtc saveOk s
    ({ st with pollFlag := false }, sv.1,
     [Effect.clearPollFlag, Effect.saveActivity uid text nowUtc,
      Effect.reply sv.2.isSome])
  else
    (st, s, [])

/-- C6: a free-text message with the outstanding-prompt flag set (and no
edit in progress) clears the flag before the save in the effect order,
persists the message text with the current UTC instant nowUtc rather
than any message-implied time, and leaves the post-state flag clear;
a message arriving in the Idle state changes nothing and records no
activity. -/
theorem recorder_clears_then_saves (uid : Nat) (text : String) (nowUtc : Nat)
    (saveOk : Bool) (eid : Option Nat) (s : Store) :
    (handle_message uid text nowUtc saveOk ⟨false, eid, true⟩ s).2.2 =
      [Effect.clearPollFlag, Effect.saveActivity uid text nowUtc,
       Effect.reply saveOk] ∧
    (handle_message uid text nowUtc saveOk ⟨false, eid, true⟩ s).1.pollFlag = false ∧
    (handle_message uid text nowUtc true ⟨false, eid, true⟩ s).2.1.rows =
      s.rows ++ [⟨s.nextId, uid, nowUtc, text⟩] ∧
    handle_message uid text nowUtc saveOk ⟨false, eid, false⟩ s =
      (⟨false, eid, false⟩, s, []) := by
  refine ⟨?_, rfl, rfl, rfl⟩
  cases saveOk <;> rfl

/-- C7: a free-text message while an edit of activity aid is in progress
makes exactly one store update call, with arguments (aid, uid, text);
both edit keys are cleared whether or not the update succeeds (the
success of the update depends only on the store contents, over which the
statement quantifies); the store is the result of that single update. -/
theorem editor_single_update (uid : Nat) (text : String) (nowUtc aid : Nat)
    (saveOk pf : Bool) (s : Store) :
    (handle_message uid text nowUtc saveOk ⟨true, some aid, pf⟩ s).2.2.filter
        isUpdateCall = [Effect.updateDesc aid uid text] ∧
    (handle_message uid text nowUtc saveOk ⟨true, some aid, pf⟩ s).1.is_editing_activity
        = false ∧
    (handle_message uid text nowUtc saveOk ⟨true, some aid, pf⟩ s).1.editing_activity_id
        = none ∧
    (handle_message uid text nowUtc saveOk ⟨true, some aid, pf⟩ s).2.1 =
      (update_activity_description aid uid text s).1 := by
  refine ⟨?_, rfl, rfl, rfl⟩
  simp [handle_message, isUpdateCall, List.filter]

/-- C10: when both the edit state (with an activity id) and the
outstanding-prompt flag are set, the message is consumed as the edit: the
single store call is the update, nothing is saved as a new activity, only
the edit keys are cleared, and the outstanding-prompt flag stays set. -/
theorem edit_priority_frame (uid : Nat) (text : String) (nowUtc aid : Nat)
    (saveOk : Bool) (s : Store) :
    (handle_message uid text nowUtc saveOk ⟨true, some aid, true⟩ s).1 =
      ⟨false, none, true⟩ ∧
    (handle_message uid text nowUtc saveOk ⟨true, some aid, true⟩ s).2.2.filter
        isUpdateCall = [Effect.updateDesc aid uid text] ∧
    (handle_message uid text nowUtc saveOk ⟨true, some aid, true⟩ s).2.2.filter
        isSaveCall = [] ∧
    Effect.clearPollFlag ∉
      (handle_message uid text nowUtc saveOk ⟨true, some aid, true⟩ s).2.2 := by
  refine ⟨rfl, ?_, ?_, ?_⟩
  · simp [handle_message, isUpdateCall, List.filter]
  · simp [handle_message, isSaveCall, List.filter]
  · simp [handle_message]

/-
DailyDispatchGuard, from src/handlers.py, check_and_send_daily_reports_job
(lines 850-902), _send_activity_report (lines 65-146) and src/database.py,
get_user_report_hour (lines 547-584).  Local dates are day indices
(yesterday of day d is d - 1), the watermark last_daily_report_sent_date
is an optional day index, and the outbound send_document call is the
sendDocOk oracle.
-/

/-- get_user_report_hour (src/database.py lines 547-584): the stored
value (none for missing row or NULL) passes basic validation 0 <= h <= 23,
otherwise None is returned and the caller falls back to
DEFAULT_REPORT_HOUR. -/
def get_user_report_hour (stored : Option Int) : Option Nat :=
  match stored with
  | none => none
  | some h => if 0 ≤ h ∧ h ≤ 23 then some h.toNat else none

/-- _send_activity_report (src/handlers.py lines 65-146) as seen by its
caller: the function catches every exception of the outbound send
internally (lines 123-146, and lines 78-87 for the empty case), so it
always returns normally; the boolean here records whether the report
document actually reached the user - False both when there were no
samples (only a no-records text is sent, lines 77-87) and when
send_document raised (swallowed at lines 134-146). -/
def send_activity_report (activities : List (Nat × String)) (sendDocOk : Bool) :
    Bool :=
  if activities.isEmpty then false else sendDocOk

/-- The per-user, per-invocation inputs of the daily report job loop. -/
structure DispatchEnv where
  localDate : Nat
  localHour : Nat
  storedReportHour : Option Int
  activitiesYesterday : List (Nat × String)
  sendDocOk : Bool
deriving DecidableEq

/-- One iteration of check_and_send_daily_reports_job (src/handlers.py
lines 860-898) for one user: acts only when the local hour equals the
effective report hour; the target date is yesterday in the user's
locale; equal watermark means no-op; otherwise _send_activity_report is
awaited and, because it returns normally even when delivery failed, the
watermark update on line 885 always runs, so the new watermark is the
target date regardless of delivery outcome.  Returns the new watermark
and whether a report document was delivered. -/
def daily_report_step (env : DispatchEnv) (lastSent : Option Nat) :
    Option Nat × Bool :=
  let effHour := (get_user_report_hour env.storedReportHour).getD 8
  if env.localHour = effHour then
    let target := env.localDate - 1
    if lastSent ≠ some target then
      (some target, send_activity_report env.activitiesYesterday env.sendDocOk)
    else (lastSent, false)
  else (lastSent, false)

/-- Repeated job invocations for one user: threads the watermark and
counts delivered report documents. -/
def daily_report_run (lastSent : Option Nat) : List DispatchEnv → Option Nat × Nat
  | [] => (lastSent, 0)
  | env :: rest =>
    let step := daily_report_step env lastSent
    let tail := daily_report_run step.1 rest
    (tail.1, (if step.2 then 1 else 0) + tail.2)

lemma daily_report_step_watermark_eq (env : DispatchEnv) :
    daily_report_step env (some (env.localDate - 1)) =
      (some (env.localDate - 1), false) := by
  simp [daily_report_step]

lemma daily_report_step_shape (env : DispatchEnv) (w : Option Nat) :
    daily_report_step env w = (w, false) ∨
      (daily_report_step env w).1 = some (env.localDate - 1) := by
  by_cases h1 : env.localHour = (get_user_report_hour env.storedReportHour).getD 8
  · by_cases h2 : w = some (env.localDate - 1)
    · left; simp [daily_report_step, h1, h2]
    · right; simp [daily_report_step, h1, h2]
  · left; simp [daily_report_step, h1]

lemma daily_report_run_blocked (D : Nat) (envs : List DispatchEnv)
    (hD : ∀ e ∈ envs, e.localDate = D) :
    daily_report_run (some (D - 1)) envs = (some (D - 1), 0) := by
  induction envs with
  | nil => rfl
  | cons env rest ih =>
    have henv : env.localDate = D := hD env (List.mem_cons_self env rest)
    have hstep : daily_report_step env (some (D - 1)) = (some (D - 1), false) := by
      rw [← henv]
      exact daily_report_step_watermark_eq env
    have hrest : ∀ e ∈ rest, e.localDate = D := fun e he =>
      hD e (List.mem_cons_of_mem env he)
    simp [daily_report_run, hstep, ih hrest]

/-- C5: over any sequence of invocations within one local calendar date
the job delivers at most one report document; a user whose local hour is
not the effective report hour is a no-op; when the watermark already
equals the target date (yesterday in the user's locale) the job is a
no-op; and two simulated invocations at the matching hour of the same
date yield exactly one delivery, advancing the watermark to the target
date once. -/
theorem dispatch_at_most_once (envs : List DispatchEnv) (D : Nat)
    (w : Option Nat) (hD : ∀ e ∈ envs, e.localDate = D) :
    (daily_report_run w envs).2 ≤ 1 ∧
    (∀ (env : DispatchEnv) (w2 : Option Nat),
      env.localHour ≠ (get_user_report_hour env.storedReportHour).getD 8 →
      daily_report_step env w2 = (w2, false)) ∧
    (∀ env : DispatchEnv,
      daily_report_step env (some (env.localDate - 1)) =
        (some (env.localDate - 1), false)) ∧
    daily_report_run none
        [⟨5, 8, some 8, [(100, "w")], true⟩, ⟨5, 8, some 8, [(100, "w")], true⟩] =
      (some 4, 1) := by
  refine ⟨?_, ?_, daily_report_step_watermark_eq, by decide⟩
  · induction envs generalizing w with
    | nil => exact Nat.zero_le 1
    | cons env rest ih =>
      have henv : env.localDate = D := hD env (List.mem_cons_self env rest)
      have hrest : ∀ e ∈ rest, e.localDate = D := fun e he =>
        hD e (List.mem_cons_of_mem env he)
      rcases daily_report_step_shape env w with hstep | hstep
      · simp only [daily_report_run, hstep]
        simpa using ih w hrest
      · have hw1 : (daily_report_step env w).1 = some (D - 1) := by
          rw [hstep, henv]
        simp only [daily_report_run, hw1, daily_report_run_blocked D rest hrest]
        split <;> simp
  · intro env w2 hne
    unfold daily_report_step
    rw [if_neg hne]

theorem dispatch_at_most_once_witness :
    (daily_report_run none
        [⟨5, 8, some 8, [(100, "w")], true⟩,
         ⟨5, 8, some 8, [(100, "w")], true⟩]).2 ≤ 1 ∧
    (∀ (env : DispatchEnv) (w2 : Option Nat),
      env.localHour ≠ (get_user_report_hour env.storedReportHour).getD 8 →
      daily_report_step env w2 = (w2, false)) ∧
    (∀ env : DispatchEnv,
      daily_report_step env (some (env.localDate - 1)) =
        (some (env.localDate - 1), false)) ∧
    daily_report_run none
        [⟨5, 8, some 8, [(100, "w")], true⟩, ⟨5, 8, some 8, [(100, "w")], true⟩] =
      (some 4, 1) :=
  dispatch_at_most_once
    [⟨5, 8, some 8, [(100, "w")], true⟩, ⟨5, 8, some 8, [(100, "w")], true⟩]
    5 none (by decide)

/-- C1 divergence, evaluated at a failing input: on local date 5 at the
matching hour 8, with one sample for yesterday and the outbound
send_document call failing (sendDocOk = false), the job still advances
the watermark to the target date 4 while no document was delivered - the
watermark IS advanced on delivery failure, because _send_activity_report
swallows the delivery exception (src/handlers.py lines 134-146) and the
guard at lines 889-891 therefore never fires for it; a later
matching-hour invocation with delivery working again is then a no-op, so
the failed date is never re-attempted.  This contradicts the claim that
a failed delivery leaves the watermark unchanged. -/
theorem dispatch_advances_on_failed_delivery :
    daily_report_step ⟨5, 8, some 8, [(100, "work")], false⟩ none =
      (some 4, false) ∧
    daily_report_step ⟨5, 8, some 8, [(100, "work")], true⟩ (some 4) =
      (some 4, false) := by
  decide

/-
Tag extraction and linking.  The spec's data model and store interface
include Tags (findTagID, linkActivityTag, the hashtag scan of the
ActivityRecorder), but no tag code is present under src/: database.py
has no tag tables and the handle_message recorder branch saves the raw
text without any tag work.  The repository is described as a mix of
iterative rewrites of the same logic; the tag-aware rewrite is missing
from src/, so the definitions below are modelled from the spec.
-/

/-- Splits a character stream into space-separated word tokens; cur is
the reversed current token. -/
def splitWordsAux (cur : List Char) : List Char → List (List Char)
  | [] => [cur.reverse]
  | c :: rest =>
    if c = ' ' then cur.reverse :: splitWordsAux [] rest
    else splitWordsAux (c :: cur) rest

/-- Modelled from the spec: the hashtag extraction of the
ActivityRecorder, missing from src/ - a case-insensitive word-token scan
for tokens of the form #word, yielding the canonical (lower-cased) tag
names in order. -/
def extract_hashtags (text : String) : List String :=
  (splitWordsAux [] text.toList).filterMap fun w =>
    match w with
    | '#' :: c :: cs => some (String.mk ((c :: cs).map Char.toLower))
    | _ => none

/-- Modelled from the spec: findTagID, missing from src/ - look the tag
up by (user, name); the registered list holds this user's tags as
(canonical name, tag id) pairs. -/
def find_tag_id (registered : List (String × Nat)) (name : String) : Option Nat :=
  (registered.find? fun p => p.1 == name).map (·.2)

/-- Outcome of recording one activity reply: the saved activity (owner,
description, UTC instant), the linked tag ids, and the unknown tag names
reported as ignored. -/
structure RecordOutcome where
  savedActivity : Option (Nat × String × Nat)
  linkedTags : List Nat
  ignoredTags : List String
deriving DecidableEq

/-- Modelled from the spec: the tag-aware ActivityRecorder, missing from
src/ - extract the hashtags, link every registered one to the new
activity, report every unregistered one as ignored rather than creating
it, and save the activity regardless of unresolved tags. -/
def record_activity_with_tags (uid : Nat) (text : String) (nowUtc : Nat)
    (registered : List (String × Nat)) : RecordOutcome :=
  let tags := extract_hashtags text
  { savedActivity := some (uid, text, nowUtc)
    linkedTags := tags.filterMap (find_tag_id registered)
    ignoredTags := tags.filter fun t => (find_tag_id registered t).isNone }

/-- C4: for a free-text reply consumed as a new activity, every extracted
hashtag registered for the user is linked, every unregistered one is
reported as ignored rather than created, and the activity is saved even
when some tags are unresolved; concretely, the reply containing the
focus and Unknown hashtags with only focus registered links focus,
ignores unknown, and still records the activity. -/
theorem recorder_tags (uid : Nat) (text t1 t2 : String) (i nowUtc : Nat)
    (registered : List (String × Nat))
    (h1 : t1 ∈ extract_hashtags text)
    (hunk : find_tag_id registered t1 = none)
    (h2 : t2 ∈ extract_hashtags text)
    (hreg : find_tag_id registered t2 = some i) :
    (record_activity_with_tags uid text nowUtc registered).savedActivity =
      some (uid, text, nowUtc) ∧
    t1 ∈ (record_activity_with_tags uid text nowUtc registered).ignoredTags ∧
    i ∈ (record_activity_with_tags uid text nowUtc registered).linkedTags ∧
    extract_hashtags "#focus #Unknown" = ["focus", "unknown"] ∧
    record_activity_with_tags 3 "#focus #Unknown" 100 [("focus", 7)] =
      ⟨some (3, "#focus #Unknown", 100), [7], ["unknown"]⟩ := by
  refine ⟨rfl, ?_, ?_, by decide, by decide⟩
  · simp only [record_activity_with_tags, List.mem_filter]
    exact ⟨h1, by simp [hunk]⟩
  · simp only [record_activity_with_tags, List.mem_filterMap]
    exact ⟨t2, h2, hreg⟩

theorem recorder_tags_witness :
    (record_activity_with_tags 3 "#focus #Unknown" 100 [("focus", 7)]).savedActivity
        = some (3, "#focus #Unknown", 100) ∧
    "unknown" ∈ (record_activity_with_tags 3 "#focus #Unknown" 100
        [("focus", 7)]).ignoredTags ∧
    7 ∈ (record_activity_with_tags 3 "#focus #Unknown" 100
        [("focus", 7)]).linkedTags ∧
    extract_hashtags "#focus #Unknown" = ["focus", "unknown"] ∧
    record_activity_with_tags 3 "#focus #Unknown" 100 [("focus", 7)] =
      ⟨some (3, "#focus #Unknown", 100), [7], ["unknown"]⟩ :=
  recorder_tags 3 "#focus #Unknown" "unknown" "focus" 7 100 [("focus", 7)]
    (by decide) (by decide) (by decide) (by decide)

end Chronor
